import Mathlib

/-!
Shallow embedding of `src/api/profile/index.js` (base44-profile-backend).

The source is a single HTTP handler over a Postgres store with two tables
(`users`, `profiles`).  We model:

  * rows and the store as Lean structures over lists of rows;
  * the four SQL statements issued by the repository helpers
    (`getUserById`, `getUserByToken`, `getProfileForUser`, and the
    conflict-tolerant `INSERT ... ON CONFLICT DO NOTHING`) as pure
    functions on the store;
  * `ensureSchema` with explicit connection-acquire/release accounting so
    the `try { ... } finally { client.release() }` structure is visible;
  * the handler as a function from headers, a store and a fault
    configuration (each database round trip may throw with an injected
    message, standing in for any runtime failure) to a response, the final
    store, and the trace of queries attempted — the `try/catch` at the
    handler boundary becomes the `Except`-to-`Response` wrapper `handler`.

JavaScript truthiness of the header strings (`x || null`, `x || ""`,
`if (devUserId)`, `else if (bearer)`) is modelled explicitly: an absent
header and an empty-string header are both falsy.
-/

namespace Base44Profile

/-- A row of the `users` table (`id TEXT PRIMARY KEY, token TEXT,
email TEXT, created_at TIMESTAMP ... DEFAULT now()`).  Timestamps are
modelled as `Nat`. -/
structure User where
  id : String
  token : Option String := none
  email : Option String := none
  created_at : Nat := 0
  deriving Repr, DecidableEq

/-- A row of the `profiles` table (`user_id TEXT PRIMARY KEY REFERENCES
users(id) ON DELETE CASCADE, profile_type TEXT, display_name TEXT,
bio TEXT, metadata JSONB, updated_at ...`).  The JSONB document is
modelled as an opaque string. -/
structure Profile where
  user_id : String
  profile_type : Option String := none
  display_name : Option String := none
  bio : Option String := none
  metadata : Option String := none
  updated_at : Nat := 0
  deriving Repr, DecidableEq

/-- The relational store: which of the two tables exist, the rows of each,
and the server clock `now` used for `created_at` on insertion. -/
structure Store where
  usersTable : Bool := true
  profilesTable : Bool := true
  users : List User := []
  profiles : List Profile := []
  now : Nat := 0
  deriving Repr, DecidableEq

/-- The SQL round trips the handler can issue, for the query trace. -/
inductive Query where
  | createUsersTable
  | createProfilesTable
  | selectUserById (id : String)
  | selectUserByToken (token : String)
  | insertUser (id : String)
  | selectProfile (user_id : String)
  deriving Repr, DecidableEq

/-- The request headers the handler reads: `req.headers["x-user-id"]` and
`req.headers["authorization"]`.  `none` is an absent header. -/
structure Headers where
  xUserId : Option String := none
  authorization : Option String := none
  deriving Repr, DecidableEq

/-- JavaScript `s.startsWith(p)`: `p`'s character sequence is a prefix of
`s`'s. -/
def strStartsWith (s p : String) : Bool :=
  p.data.isPrefixOf s.data

/-- JavaScript `x || null` on a nullable string: an absent header and an
empty string are both falsy and collapse to `null`. -/
def jsOrNull (o : Option String) : Option String :=
  match o with
  | some s => if s = "" then none else some s
  | none => none

/-- Response bodies: the 401 `{ error: msg }` bodies, the 500
`{ error, details }` body, and the 200 `{ user, profile, profile_type }`
body. -/
inductive RespBody where
  | errMsg (error : String)
  | serverError (error : String) (details : String)
  | success (user : User) (profile : Option Profile) (profile_type : Option String)
  deriving Repr, DecidableEq

/-- An HTTP response: status code and JSON body. -/
structure Response where
  status : Nat
  body : RespBody
  deriving Repr, DecidableEq

/-- `"Missing auth. Provide x-user-id (dev) or Authorization: Bearer <token>."` -/
def missingAuthMsg : String :=
  "Missing auth. Provide x-user-id (dev) or Authorization: Bearer <token>."

/-- `"Invalid auth / user not found."` -/
def invalidAuthMsg : String :=
  "Invalid auth / user not found."

/-- The constant `error` field of the 500 body. -/
def serverErrorMsg : String := "Server error"

/-- `SELECT * FROM users WHERE id = $1 LIMIT 1`, then `rows[0] || null`. -/
def getUserById (users : List User) (userId : String) : Option User :=
  users.find? (fun u => u.id == userId)

/-- `SELECT * FROM users WHERE token = $1 LIMIT 1`, then `rows[0] || null`.
A SQL `NULL` token never compares equal to the parameter. -/
def getUserByToken (users : List User) (token : String) : Option User :=
  users.find? (fun u => u.token == some token)

/-- `SELECT * FROM profiles WHERE user_id = $1 LIMIT 1`, then
`rows[0] || null`. -/
def getProfileForUser (profiles : List Profile) (userId : String) : Option Profile :=
  profiles.find? (fun p => p.user_id == userId)

/-- `INSERT INTO users(id, created_at) VALUES($1, now()) ON CONFLICT DO
NOTHING`: if a row with this primary key exists the insert is a no-op,
otherwise a minimal row (only `id` and `created_at`) is appended. -/
def insertUserNoConflict (users : List User) (userId : String) (now : Nat) :
    List User :=
  if users.any (fun u => u.id == userId) then users
  else users ++ [{ id := userId, created_at := now }]

/-- A `CREATE TABLE` statement against a table that may already exist:
with `IF NOT EXISTS` it always succeeds; without it, an existing table is
a duplicate-object error. -/
def createTable (ifNotExists : Bool) (tableExists : Bool) :
    Except String Unit :=
  if tableExists && !ifNotExists then Except.error "duplicate-object"
  else Except.ok ()

/-- Outcome of one `ensureSchema()` invocation: the result (or thrown
error), the table-existence flags afterwards, how many pool connections
were acquired and released, and the DDL statements attempted in order. -/
structure SchemaResult where
  result : Except String Unit
  usersTable : Bool
  profilesTable : Bool
  connects : Nat
  releases : Nat
  stmts : List Query
  deriving Repr

/-- `ensureSchema()`: acquire one client from the pool, issue
`CREATE TABLE IF NOT EXISTS users ...` then
`CREATE TABLE IF NOT EXISTS profiles ...`, and release the client in a
`finally` on every exit path.  `f1`/`f2` inject a runtime failure of the
first/second statement (`some msg` means that round trip throws `msg`). -/
def ensureSchema (f1 f2 : Option String) (ut pt : Bool) : SchemaResult :=
  -- const client = await pool.connect();  (one acquire)
  match f1 with
  | some e => ⟨Except.error e, ut, pt, 1, 1, [Query.createUsersTable]⟩
  | none =>
    match createTable true ut with
    | Except.error e => ⟨Except.error e, ut, pt, 1, 1, [Query.createUsersTable]⟩
    | Except.ok _ =>
      match f2 with
      | some e =>
        ⟨Except.error e, true, pt, 1, 1,
          [Query.createUsersTable, Query.createProfilesTable]⟩
      | none =>
        match createTable true pt with
        | Except.error e =>
          ⟨Except.error e, true, pt, 1, 1,
            [Query.createUsersTable, Query.createProfilesTable]⟩
        | Except.ok _ =>
          ⟨Except.ok (), true, true, 1, 1,
            [Query.createUsersTable, Query.createProfilesTable]⟩

/-- Fault injection: `some msg` makes the corresponding database round
trip of the handler throw `msg`; `none` lets it run.  The two dev-path
`getUserById` calls have separate slots. -/
structure Faults where
  schemaUsersErr : Option String := none
  schemaProfilesErr : Option String := none
  selectByIdErr : Option String := none
  insertErr : Option String := none
  reselectByIdErr : Option String := none
  selectByTokenErr : Option String := none
  selectProfileErr : Option String := none
  deriving Repr, DecidableEq

/-- The fault-free configuration: every round trip succeeds. -/
def noFaults : Faults := {}

/-- A thrown error, carrying the message, the store at throw time, and
the queries attempted so far. -/
abbrev Err := String × Store × List Query

/-- Outcome of the authentication block: the early-return 401 of the
`else` branch (no credential supplied), or the `user` variable after the
`if (devUserId) / else if (bearer)` branches ran. -/
inductive AuthOutcome where
  | missingResp
  | resolved (user : Option User)
  deriving Repr, DecidableEq

/-- The authentication block of `handler` (lines 69–86): compute
`devUserId` and `bearer` with JS truthiness, then
`if (devUserId)` → look up by id, provisioning on absence via the
conflict-tolerant insert and a re-fetch; `else if (bearer)` → look up by
token; `else` → the early 401 missing-credentials return. -/
def authResolve (fl : Faults) (h : Headers) (s : Store) (log : List Query) :
    Except Err (AuthOutcome × Store × List Query) :=
  let devUserId := jsOrNull h.xUserId
  let authHeader := h.authorization.getD ""
  let bearer :=
    if strStartsWith authHeader "Bearer " then some (authHeader.drop 7) else none
  match devUserId with
  | some uid =>
    match fl.selectByIdErr with
    | some e => Except.error (e, s, log ++ [Query.selectUserById uid])
    | none =>
      let log1 := log ++ [Query.selectUserById uid]
      match getUserById s.users uid with
      | some u => Except.ok (AuthOutcome.resolved (some u), s, log1)
      | none =>
        match fl.insertErr with
        | some e => Except.error (e, s, log1 ++ [Query.insertUser uid])
        | none =>
          let s1 := { s with users := insertUserNoConflict s.users uid s.now }
          let log2 := log1 ++ [Query.insertUser uid]
          match fl.reselectByIdErr with
          | some e => Except.error (e, s1, log2 ++ [Query.selectUserById uid])
          | none =>
            Except.ok (AuthOutcome.resolved (getUserById s1.users uid), s1,
              log2 ++ [Query.selectUserById uid])
  | none =>
    match jsOrNull bearer with
    | some t =>
      match fl.selectByTokenErr with
      | some e => Except.error (e, s, log ++ [Query.selectUserByToken t])
      | none =>
        Except.ok (AuthOutcome.resolved (getUserByToken s.users t), s,
          log ++ [Query.selectUserByToken t])
    | none => Except.ok (AuthOutcome.missingResp, s, log)

/-- Result of one handler invocation: the HTTP response, the store
afterwards, and the queries attempted. -/
structure RunResult where
  resp : Response
  store : Store
  log : List Query
  deriving Repr, DecidableEq

/-- The body of the `try` block of `handler`: ensure the schema, run the
authentication block, map `missingResp`/`resolved none` to the two 401
responses, and for a resolved user fetch the profile and build the 200
body `{ user, profile, profile_type: profile?.profile_type ?? null }`.
An `Except.error` is a thrown exception reaching the `catch`. -/
def handlerCore (fl : Faults) (h : Headers) (s0 : Store) :
    Except Err RunResult :=
  let sr := ensureSchema fl.schemaUsersErr fl.schemaProfilesErr
    s0.usersTable s0.profilesTable
  let s1 : Store :=
    { s0 with usersTable := sr.usersTable, profilesTable := sr.profilesTable }
  match sr.result with
  | Except.error e => Except.error (e, s1, sr.stmts)
  | Except.ok _ =>
    match authResolve fl h s1 sr.stmts with
    | Except.error e => Except.error e
    | Except.ok (AuthOutcome.missingResp, s2, log2) =>
      Except.ok ⟨⟨401, RespBody.errMsg missingAuthMsg⟩, s2, log2⟩
    | Except.ok (AuthOutcome.resolved none, s2, log2) =>
      Except.ok ⟨⟨401, RespBody.errMsg invalidAuthMsg⟩, s2, log2⟩
    | Except.ok (AuthOutcome.resolved (some u), s2, log2) =>
      match fl.selectProfileErr with
      | some e => Except.error (e, s2, log2 ++ [Query.selectProfile u.id])
      | none =>
        let profile := getProfileForUser s2.profiles u.id
        Except.ok ⟨⟨200,
          RespBody.success u profile (profile.bind Profile.profile_type)⟩,
          s2, log2 ++ [Query.selectProfile u.id]⟩

/-- The exported handler: the `try/catch` boundary.  Any exception thrown
inside `handlerCore` is converted to
`res.status(500).json({ error: "Server error", details: String(err) })`;
nothing propagates. -/
def handler (fl : Faults) (h : Headers) (s0 : Store) : RunResult :=
  match handlerCore fl h s0 with
  | Except.ok r => r
  | Except.error (e, s, log) =>
    ⟨⟨500, RespBody.serverError serverErrorMsg e⟩, s, log⟩

/-! ### General lemmas about the embedded operations -/

theorem isPrefixOf_self_append {α : Type} [BEq α] [LawfulBEq α]
    (l₁ l₂ : List α) : l₁.isPrefixOf (l₁ ++ l₂) = true := by
  induction l₁ with
  | nil => simp [List.isPrefixOf]
  | cons a l ih => simp [List.isPrefixOf, ih]

theorem strStartsWith_append (p t : String) :
    strStartsWith (p ++ t) p = true := by
  rw [strStartsWith, String.data_append]
  exact isPrefixOf_self_append p.data t.data

theorem drop7_bearer_append (t : String) : ("Bearer " ++ t).drop 7 = t := by
  rw [String.drop_eq, String.data_append,
    List.drop_left' (by rfl : ("Bearer ").data.length = 7)]

theorem jsOrNull_eq_none_iff (x : Option String) :
    jsOrNull x = none ↔ x = none ∨ x = some "" := by
  cases x with
  | none => simp [jsOrNull]
  | some s =>
    by_cases hs : s = "" <;> simp [jsOrNull, hs]

theorem getUserById_append_new (users : List User) (U : String) (now : Nat)
    (h : getUserById users U = none) :
    getUserById (users ++ [{ id := U, created_at := now }]) U
      = some { id := U, created_at := now } := by
  unfold getUserById at h ⊢
  rw [List.find?_append, h]
  simp

theorem insertUserNoConflict_of_absent (users : List User) (U : String)
    (now : Nat) (h : getUserById users U = none) :
    insertUserNoConflict users U now
      = users ++ [{ id := U, created_at := now }] := by
  unfold getUserById at h
  unfold insertUserNoConflict
  rw [if_neg]
  intro hany
  obtain ⟨u, hu, hp⟩ := List.any_eq_true.mp hany
  exact (List.find?_eq_none.mp h u hu) hp

theorem insertUserNoConflict_of_present (users : List User) (U : String)
    (now : Nat) (u : User) (h : getUserById users U = some u) :
    insertUserNoConflict users U now = users := by
  unfold getUserById at h
  unfold insertUserNoConflict
  rw [if_pos]
  refine List.any_eq_true.mpr ⟨u, List.mem_of_find?_eq_some h, ?_⟩
  have hp := List.find?_some h
  exact hp

theorem ensureSchema_ok (ut pt : Bool) :
    ensureSchema none none ut pt =
      ⟨Except.ok (), true, true, 1, 1,
        [Query.createUsersTable, Query.createProfilesTable]⟩ := by
  simp [ensureSchema, createTable]

/-! ### Claim theorems -/

/-- C1: for every request whose x-user-id header is a non-empty string `U`
with no user row of id `U` in the store, the fault-free handler inserts a
user row with id `U` (the conflict-tolerant insert being a no-op on key
conflict rather than an error), re-fetches the row by id, and responds
HTTP 200 carrying that user; no credential is verified, so any identifier
succeeds. -/
theorem dev_header_provisions_unseen_user
    (U : String) (hU : U ≠ "") (auth : Option String) (s : Store)
    (habs : getUserById s.users U = none) :
    handler noFaults ⟨some U, auth⟩ s =
      ⟨⟨200, RespBody.success { id := U, created_at := s.now }
          (getProfileForUser s.profiles U)
          ((getProfileForUser s.profiles U).bind Profile.profile_type)⟩,
       { s with
          usersTable := true
          profilesTable := true
          users := s.users ++ [{ id := U, created_at := s.now }] },
       [Query.createUsersTable, Query.createProfilesTable,
        Query.selectUserById U, Query.insertUser U, Query.selectUserById U,
        Query.selectProfile U]⟩
    ∧ ∀ (us : List User) (i : String) (n : Nat) (u : User),
        getUserById us i = some u → insertUserNoConflict us i n = us := by
  refine ⟨?_, fun us i n u hu => insertUserNoConflict_of_present us i n u hu⟩
  simp [handler, handlerCore, noFaults, ensureSchema_ok, authResolve, jsOrNull,
    hU, habs, insertUserNoConflict_of_absent _ _ s.now habs,
    getUserById_append_new _ _ s.now habs]

theorem dev_header_provisions_unseen_user_witness :
    ("alice" : String) ≠ ""
    ∧ getUserById ({} : Store).users "alice" = none
    ∧ (handler noFaults ⟨some "alice", none⟩ {} =
        ⟨⟨200, RespBody.success { id := "alice", created_at := 0 } none none⟩,
         { users := [{ id := "alice", created_at := 0 }] },
         [Query.createUsersTable, Query.createProfilesTable,
          Query.selectUserById "alice", Query.insertUser "alice",
          Query.selectUserById "alice", Query.selectProfile "alice"]⟩
        ∧ ∀ (us : List User) (i : String) (n : Nat) (u : User),
            getUserById us i = some u → insertUserNoConflict us i n = us) :=
  ⟨by decide, by decide,
    dev_header_provisions_unseen_user "alice" (by decide) none {} (by decide)⟩

/-- C2: a request with no x-user-id header and an Authorization header of
the form `Bearer T` (non-empty `T`) matching no user's token gets the
generic invalid-credentials 401, and no user row is inserted: the rows
are unchanged and the only data query issued is the token lookup. -/
theorem bearer_unknown_token_invalid_401
    (T : String) (hT : T ≠ "") (s : Store)
    (habs : getUserByToken s.users T = none) :
    handler noFaults ⟨none, some ("Bearer " ++ T)⟩ s =
      ⟨⟨401, RespBody.errMsg invalidAuthMsg⟩,
       { s with usersTable := true, profilesTable := true },
       [Query.createUsersTable, Query.createProfilesTable,
        Query.selectUserByToken T]⟩ := by
  simp [handler, handlerCore, noFaults, ensureSchema_ok, authResolve, jsOrNull,
    strStartsWith_append, drop7_bearer_append, hT, habs]

theorem bearer_unknown_token_invalid_401_witness :
    ("tok" : String) ≠ ""
    ∧ getUserByToken ({} : Store).users "tok" = none
    ∧ handler noFaults ⟨none, some ("Bearer " ++ "tok")⟩ {} =
        ⟨⟨401, RespBody.errMsg invalidAuthMsg⟩, {},
         [Query.createUsersTable, Query.createProfilesTable,
          Query.selectUserByToken "tok"]⟩ :=
  ⟨by decide, by decide,
    bearer_unknown_token_invalid_401 "tok" (by decide) {} (by decide)⟩

/-- C3: a request with neither a non-empty x-user-id header nor an
Authorization header beginning with `Bearer ` gets the 401
missing-credentials message (which names the two accepted credential
forms), the rows are untouched, and no row-writing statement is issued:
the query trace holds only the two idempotent DDL statements. -/
theorem no_credentials_missing_401_no_write
    (xuid : Option String) (hx : jsOrNull xuid = none)
    (auth : Option String)
    (ha : strStartsWith (auth.getD "") "Bearer " = false)
    (s : Store) :
    handler noFaults ⟨xuid, auth⟩ s =
      ⟨⟨401, RespBody.errMsg missingAuthMsg⟩,
       { s with usersTable := true, profilesTable := true },
       [Query.createUsersTable, Query.createProfilesTable]⟩ := by
  rcases (jsOrNull_eq_none_iff xuid).mp hx with h | h <;> subst h <;>
    simp [handler, handlerCore, noFaults, ensureSchema_ok, authResolve,
      jsOrNull, ha]

theorem no_credentials_missing_401_no_write_witness :
    jsOrNull none = none
    ∧ strStartsWith ((none : Option String).getD "") "Bearer " = false
    ∧ handler noFaults ⟨none, none⟩ {} =
        ⟨⟨401, RespBody.errMsg missingAuthMsg⟩, {},
         [Query.createUsersTable, Query.createProfilesTable]⟩ :=
  ⟨by decide, by decide,
    no_credentials_missing_401_no_write none (by decide) none (by decide) {}⟩

/-- C4: whenever the authentication block resolves a user `u`, the
fault-free handler fetches `u`'s profile row, treats its absence as a
valid non-error state, and responds HTTP 200 with body
`{ user, profile, profile_type }` where `profile` is the profile row or
null and `profile_type` is the profile's type field or null when no
profile row exists. -/
theorem resolved_user_profile_response_200
    (h : Headers) (s : Store) (u : User) (t : Store) (l : List Query)
    (hres : authResolve noFaults h
        { s with usersTable := true, profilesTable := true }
        [Query.createUsersTable, Query.createProfilesTable]
      = Except.ok (AuthOutcome.resolved (some u), t, l)) :
    handler noFaults h s =
      ⟨⟨200, RespBody.success u (getProfileForUser t.profiles u.id)
          ((getProfileForUser t.profiles u.id).bind Profile.profile_type)⟩,
       t, l ++ [Query.selectProfile u.id]⟩ := by
  simp [handler, handlerCore, ensureSchema_ok, hres,
    show noFaults.schemaUsersErr = none from rfl,
    show noFaults.schemaProfilesErr = none from rfl,
    show noFaults.selectProfileErr = none from rfl]

theorem resolved_user_profile_response_200_witness :
    authResolve noFaults ⟨some "bob", none⟩
        { users := [{ id := "bob", created_at := 5 }] }
        [Query.createUsersTable, Query.createProfilesTable]
      = Except.ok (AuthOutcome.resolved (some { id := "bob", created_at := 5 }),
          { users := [{ id := "bob", created_at := 5 }] },
          [Query.createUsersTable, Query.createProfilesTable,
           Query.selectUserById "bob"])
    ∧ handler noFaults ⟨some "bob", none⟩
        { users := [{ id := "bob", created_at := 5 }] } =
      ⟨⟨200, RespBody.success { id := "bob", created_at := 5 } none none⟩,
       { users := [{ id := "bob", created_at := 5 }] },
       [Query.createUsersTable, Query.createProfilesTable,
        Query.selectUserById "bob", Query.selectProfile "bob"]⟩ :=
  ⟨by rfl,
    resolved_user_profile_response_200 ⟨some "bob", none⟩
      { users := [{ id := "bob", created_at := 5 }] }
      { id := "bob", created_at := 5 }
      { users := [{ id := "bob", created_at := 5 }] }
      [Query.createUsersTable, Query.createProfilesTable,
       Query.selectUserById "bob"] (by rfl)⟩

/-- C5: authentication is ordered with first match winning: when both a
non-empty x-user-id header `U` and an Authorization header starting with
`Bearer ` are supplied, the dev-mode identifier path runs (the id lookup
for `U` is issued) and no token lookup is ever issued. -/
theorem dev_header_takes_precedence_over_bearer
    (U : String) (hU : U ≠ "") (a : String)
    (ha : strStartsWith a "Bearer " = true) (s : Store) :
    Query.selectUserById U ∈ (handler noFaults ⟨some U, some a⟩ s).log
    ∧ ∀ t, Query.selectUserByToken t ∉
        (handler noFaults ⟨some U, some a⟩ s).log := by
  cases hfind : getUserById s.users U with
  | some u =>
    have hlog : (handler noFaults ⟨some U, some a⟩ s).log
        = [Query.createUsersTable, Query.createProfilesTable,
           Query.selectUserById U, Query.selectProfile u.id] := by
      simp [handler, handlerCore, noFaults, ensureSchema_ok, authResolve,
        jsOrNull, hU, hfind]
    rw [hlog]
    refine ⟨by simp, fun t => by simp⟩
  | none =>
    have hlog : (handler noFaults ⟨some U, some a⟩ s).log
        = [Query.createUsersTable, Query.createProfilesTable,
           Query.selectUserById U, Query.insertUser U, Query.selectUserById U,
           Query.selectProfile U] := by
      simp [handler, handlerCore, noFaults, ensureSchema_ok, authResolve,
        jsOrNull, hU, hfind, insertUserNoConflict_of_absent _ _ s.now hfind,
        getUserById_append_new _ _ s.now hfind]
    rw [hlog]
    refine ⟨by simp, fun t => by simp⟩

theorem dev_header_takes_precedence_over_bearer_witness :
    ("alice" : String) ≠ ""
    ∧ strStartsWith "Bearer tok" "Bearer " = true
    ∧ (Query.selectUserById "alice"
        ∈ (handler noFaults ⟨some "alice", some "Bearer tok"⟩ {}).log
      ∧ ∀ t, Query.selectUserByToken t ∉
          (handler noFaults ⟨some "alice", some "Bearer tok"⟩ {}).log) :=
  ⟨by decide, by decide,
    dev_header_takes_precedence_over_bearer "alice" (by decide) "Bearer tok"
      (by decide) {}⟩

/-- C6: for a request without a non-empty x-user-id header, an
Authorization header that does not begin with the exact prefix `Bearer `
produces, under every fault configuration, exactly the same outcome as
supplying no Authorization header at all, and in a fault-free run that
outcome is the missing-credentials 401, not invalid-credentials and not
an error. -/
theorem malformed_bearer_header_like_absent
    (fl : Faults) (xuid : Option String) (hx : jsOrNull xuid = none)
    (a : String) (ha : strStartsWith a "Bearer " = false) (s : Store) :
    handler fl ⟨xuid, some a⟩ s = handler fl ⟨xuid, none⟩ s
    ∧ (handler noFaults ⟨xuid, some a⟩ s).resp
        = ⟨401, RespBody.errMsg missingAuthMsg⟩ := by
  constructor
  · have hAR : ∀ (s1 : Store) (lg : List Query),
        authResolve fl ⟨xuid, some a⟩ s1 lg
          = authResolve fl ⟨xuid, none⟩ s1 lg := by
      intro s1 lg
      rcases (jsOrNull_eq_none_iff xuid).mp hx with h | h <;> subst h <;>
        simp [authResolve, jsOrNull, ha,
          show strStartsWith "" "Bearer " = false from by decide]
    simp [handler, handlerCore, hAR]
  · rcases (jsOrNull_eq_none_iff xuid).mp hx with h | h <;> subst h <;>
      simp [handler, handlerCore, noFaults, ensureSchema_ok, authResolve,
        jsOrNull, ha]

theorem malformed_bearer_header_like_absent_witness :
    jsOrNull none = none
    ∧ strStartsWith "Basic xyz" "Bearer " = false
    ∧ (handler noFaults ⟨none, some "Basic xyz"⟩ {} =
          handler noFaults ⟨none, none⟩ {}
       ∧ (handler noFaults ⟨none, some "Basic xyz"⟩ {}).resp
          = ⟨401, RespBody.errMsg missingAuthMsg⟩) :=
  ⟨by decide, by decide,
    malformed_bearer_header_like_absent noFaults none (by decide) "Basic xyz"
      (by decide) {}⟩

/-- C7: for a request with a non-empty x-user-id header `U` whose user
row already exists, no insert is issued and no row is modified: the rows
are returned to their prior state and the response carries the existing
row `u` unchanged, with its original `created_at`. -/
theorem existing_dev_user_returned_unchanged
    (U : String) (hU : U ≠ "") (auth : Option String) (s : Store) (u : User)
    (hfound : getUserById s.users U = some u) :
    handler noFaults ⟨some U, auth⟩ s =
      ⟨⟨200, RespBody.success u (getProfileForUser s.profiles u.id)
          ((getProfileForUser s.profiles u.id).bind Profile.profile_type)⟩,
       { s with usersTable := true, profilesTable := true },
       [Query.createUsersTable, Query.createProfilesTable,
        Query.selectUserById U, Query.selectProfile u.id]⟩ := by
  simp [handler, handlerCore, noFaults, ensureSchema_ok, authResolve, jsOrNull,
    hU, hfound]

theorem existing_dev_user_returned_unchanged_witness :
    ("bob" : String) ≠ ""
    ∧ getUserById
        ({ users := [{ id := "bob", token := some "t0", created_at := 7 }] }
          : Store).users "bob"
      = some { id := "bob", token := some "t0", created_at := 7 }
    ∧ handler noFaults ⟨some "bob", none⟩
        { users := [{ id := "bob", token := some "t0", created_at := 7 }] } =
      ⟨⟨200, RespBody.success
          { id := "bob", token := some "t0", created_at := 7 } none none⟩,
       { users := [{ id := "bob", token := some "t0", created_at := 7 }] },
       [Query.createUsersTable, Query.createProfilesTable,
        Query.selectUserById "bob", Query.selectProfile "bob"]⟩ :=
  ⟨by decide, by decide,
    existing_dev_user_returned_unchanged "bob" (by decide) none
      { users := [{ id := "bob", token := some "t0", created_at := 7 }] }
      { id := "bob", token := some "t0", created_at := 7 } (by decide)⟩

/-- C8: every failure thrown anywhere inside the handler body — schema
bootstrap, any lookup, the insert, the profile fetch — is caught at the
handler boundary and becomes an HTTP 500 response whose body holds the
constant "Server error" label and the stringified exception; nothing
propagates uncaught (`handler` is total over all fault configurations). -/
theorem all_failures_caught_as_500
    (fl : Faults) (h : Headers) (s : Store) (e : String) (t : Store)
    (l : List Query) (herr : handlerCore fl h s = Except.error (e, t, l)) :
    handler fl h s = ⟨⟨500, RespBody.serverError serverErrorMsg e⟩, t, l⟩ := by
  simp [handler, herr]

theorem all_failures_caught_as_500_witness :
    handlerCore { schemaUsersErr := some "boom" } ⟨none, none⟩ {}
      = Except.error ("boom", {}, [Query.createUsersTable])
    ∧ handler { schemaUsersErr := some "boom" } ⟨none, none⟩ {}
      = ⟨⟨500, RespBody.serverError serverErrorMsg "boom"⟩, {},
         [Query.createUsersTable]⟩ :=
  ⟨by rfl,
    all_failures_caught_as_500 { schemaUsersErr := some "boom" } ⟨none, none⟩
      {} "boom" {} [Query.createUsersTable] (by rfl)⟩

/-- C9: the schema bootstrapper acquires exactly one connection and
releases it on every exit path, including when either statement fails;
the statements are attempted in dependency order (users before
profiles); a fault-free invocation succeeds whatever tables already
exist, and re-invoking it on the resulting state raises no
duplicate-object error. -/
theorem ensureSchema_single_connection_ordered_idempotent
    (f1 f2 : Option String) (ut pt : Bool) :
    (ensureSchema f1 f2 ut pt).connects = 1
    ∧ (ensureSchema f1 f2 ut pt).releases = 1
    ∧ ((ensureSchema f1 f2 ut pt).stmts = [Query.createUsersTable]
        ∨ (ensureSchema f1 f2 ut pt).stmts
            = [Query.createUsersTable, Query.createProfilesTable])
    ∧ (f1 = none → f2 = none →
        (ensureSchema f1 f2 ut pt).result = Except.ok ())
    ∧ (ensureSchema none none (ensureSchema none none ut pt).usersTable
        (ensureSchema none none ut pt).profilesTable).result
        = Except.ok () := by
  cases f1 <;> cases f2 <;> simp [ensureSchema, createTable]

theorem ensureSchema_single_connection_ordered_idempotent_witness :
    (ensureSchema none none true true).connects = 1
    ∧ (ensureSchema none none true true).releases = 1
    ∧ ((ensureSchema none none true true).stmts = [Query.createUsersTable]
        ∨ (ensureSchema none none true true).stmts
            = [Query.createUsersTable, Query.createProfilesTable])
    ∧ ((none : Option String) = none → (none : Option String) = none →
        (ensureSchema none none true true).result = Except.ok ())
    ∧ (ensureSchema none none (ensureSchema none none true true).usersTable
        (ensureSchema none none true true).profilesTable).result
        = Except.ok () :=
  ensureSchema_single_connection_ordered_idempotent none none true true

/-- C10: a request with no x-user-id header and an Authorization header
that is exactly `Bearer ` (empty remainder) is treated as if no bearer
credential were supplied: the handler answers the missing-credentials
401 and no token lookup is issued against the store. -/
theorem empty_bearer_token_treated_as_missing
    (xuid : Option String) (hx : jsOrNull xuid = none) (s : Store) :
    handler noFaults ⟨xuid, some "Bearer "⟩ s =
      ⟨⟨401, RespBody.errMsg missingAuthMsg⟩,
       { s with usersTable := true, profilesTable := true },
       [Query.createUsersTable, Query.createProfilesTable]⟩
    ∧ ∀ t, Query.selectUserByToken t ∉
        (handler noFaults ⟨xuid, some "Bearer "⟩ s).log := by
  have hmain : handler noFaults ⟨xuid, some "Bearer "⟩ s =
      ⟨⟨401, RespBody.errMsg missingAuthMsg⟩,
       { s with usersTable := true, profilesTable := true },
       [Query.createUsersTable, Query.createProfilesTable]⟩ := by
    rcases (jsOrNull_eq_none_iff xuid).mp hx with h | h <;> subst h <;>
      simp [handler, handlerCore, noFaults, ensureSchema_ok, authResolve,
        jsOrNull, show strStartsWith "Bearer " "Bearer " = true from by decide,
        show "Bearer ".drop 7 = "" from by decide]
  refine ⟨hmain, ?_⟩
  intro t
  rw [hmain]
  simp

theorem empty_bearer_token_treated_as_missing_witness :
    jsOrNull none = none
    ∧ (handler noFaults ⟨none, some "Bearer "⟩ {} =
        ⟨⟨401, RespBody.errMsg missingAuthMsg⟩, {},
         [Query.createUsersTable, Query.createProfilesTable]⟩
      ∧ ∀ t, Query.selectUserByToken t ∉
          (handler noFaults ⟨none, some "Bearer "⟩ {}).log) :=
  ⟨by decide, empty_bearer_token_treated_as_missing none (by decide) {}⟩

end Base44Profile
